import Mathlib

/-!
Verification of the capture-classify-render core of
`Real-Time Emotion Detection OpenCV Python Source Code/main.py`.

The Python module is shallowly embedded: pure helpers become Lean
functions, the side effects of the OpenCV drawing primitives are made
explicit as lists of `DrawCmd` values, and the mutable state of the
`execute` loop becomes explicit state passing through a step function
`tick` plus two drivers (a stream-indexed one, `stateAt` / `outAt`, for
the temporal claims, and a list-consuming one, `execute`, for the
exit-path claims).  Python ints are unbounded, so they are embedded as
`Int` (tick counters, which are never negative, as `Nat`).
-/

/-! ## Constants of main.py (lines 6-14) -/

/-- `WHITE_COLOR = (255, 255, 255)` (main.py line 7). -/
def WHITE_COLOR : Nat × Nat × Nat := (255, 255, 255)

/-- `GREEN_COLOR = (0, 255, 0)` (main.py line 8). -/
def GREEN_COLOR : Nat × Nat × Nat := (0, 255, 0)

/-- `BLUE_COLOR = (255, 255, 104)` (main.py line 9). -/
def BLUE_COLOR : Nat × Nat × Nat := (255, 255, 104)

/-- `FRAME_WIDTH = 640` (main.py line 13). -/
def FRAME_WIDTH : Int := 640

/-- `FRAME_HEIGHT = 490` (main.py line 14). -/
def FRAME_HEIGHT : Int := 490

/-- Modelled from the spec: the reserved "no face" sentinel label.  It is
imported by main.py from `utils.image_classifier` (`NO_FACE_LABEL`), a file
that is not under src/; the spec only says it is a reserved sentinel string
meaning "no face detected".  Its exact text is immaterial to every claim:
only its identity is ever compared (`label == NO_FACE_LABEL`). -/
def NO_FACE_LABEL : String := "no face"

/-! ## Data model -/

/-- An emotion label, as produced by the classifier collaborator. -/
abbrev Label := String

/-- A face rectangle as the 4-tuple `(x, y, w, h)` that
`extract_face_rectangle` returns and `BoundingBox(*rectangle)` consumes. -/
abbrev Rect := Int × Int × Int × Int

/-- A landmark point set: ordered `(x, y)` pixel coordinates for one face. -/
abbrev PointList := List (Int × Int)

/-- `BoundingBox` (main.py lines 17-34): four integer fields set in
`__init__`; the corners are read-only derived `@property` accessors, the
structure is never mutated after construction. -/
structure BoundingBox where
  x : Int
  y : Int
  w : Int
  h : Int
deriving DecidableEq

/-- `BoundingBox.origin` (main.py lines 24-26): `(self.x, self.y)`. -/
def BoundingBox.origin (bb : BoundingBox) : Int × Int := (bb.x, bb.y)

/-- `BoundingBox.top_right` (main.py lines 28-30): `self.x + self.w`. -/
def BoundingBox.top_right (bb : BoundingBox) : Int := bb.x + bb.w

/-- `BoundingBox.bottom_left` (main.py lines 32-34): `self.y + self.h`. -/
def BoundingBox.bottom_left (bb : BoundingBox) : Int := bb.y + bb.h

/-- `BoundingBox(*rectangle)`: builds a box from the 4-tuple returned by
the classifier (main.py line 94). -/
def mkBB (r : Rect) : BoundingBox := ⟨r.1, r.2.1, r.2.2.1, r.2.2.2⟩

/-! ## Overlay renderer

The OpenCV primitives draw in place on the frame; their effect is embedded
as the list of drawing commands they issue, in issue order. -/

/-- One OpenCV drawing primitive invocation.  `rect` is `cv2.rectangle`
(two corner points, color, thickness); `circle` is `cv2.circle` (center,
radius, color, thickness, where thickness `-1` means filled); `text` is
`cv2.putText` (string, position, color, thickness; the font, scale and
line type are the same fixed constants at every call site and are
therefore not recorded). -/
inductive DrawCmd where
  | rect (p1 p2 : Int × Int) (color : Nat × Nat × Nat) (thickness : Int)
  | circle (center : Int × Int) (radius : Nat) (color : Nat × Nat × Nat) (thickness : Int)
  | text (s : String) (pos : Int × Int) (color : Nat × Nat × Nat) (thickness : Int)
deriving DecidableEq

/-- `draw_face_rectangle(bb, img, color=BLUE_COLOR)` (main.py lines 37-38):
one `cv2.rectangle(img, bb.origin, (bb.top_right, bb.bottom_left), color, 2)`. -/
def draw_face_rectangle (bb : BoundingBox) : List DrawCmd :=
  [DrawCmd.rect bb.origin (bb.top_right, bb.bottom_left) BLUE_COLOR 2]

/-- `draw_landmark_points(points, img, color=WHITE_COLOR)` (main.py lines
41-45): returns immediately when `points is None`, otherwise issues
`cv2.circle(img, (x, y), 1, color, -1)` for every point in order. -/
def draw_landmark_points (points : Option PointList) : List DrawCmd :=
  match points with
  | none => []
  | some ps => ps.map (fun q => DrawCmd.circle q 1 WHITE_COLOR (-1))

/-- `write_label(x, y, label, img, color=BLUE_COLOR)` (main.py lines 48-51):
when `label == NO_FACE_LABEL`, first puts the uppercased label at the frame
center `(int(FRAME_WIDTH / 2), int(FRAME_HEIGHT / 2))`; then, in every
case, puts the label at `(x + 10, y - 10)`. -/
def write_label (x y : Int) (label : String) : List DrawCmd :=
  (if label = NO_FACE_LABEL then
      [DrawCmd.text label.toUpper (FRAME_WIDTH / 2, FRAME_HEIGHT / 2) BLUE_COLOR 2]
    else []) ++ [DrawCmd.text label (x + 10, y - 10) BLUE_COLOR 2]

/-! ## Positional pairing (Python `zip` over three sequences) -/

/-- Python `zip(a, b, c)`: pairs positionally and stops at the shortest
sequence (main.py line 93). -/
def zip3 {α β γ : Type} : List α → List β → List γ → List (α × β × γ)
  | a :: as, b :: bs, c :: cs => (a, b, c) :: zip3 as bs cs
  | _, _, _ => []

theorem zip3_nil_left {α β γ : Type} (bs : List β) (cs : List γ) :
    zip3 ([] : List α) bs cs = [] := by
  cases bs <;> cases cs <;> rfl

theorem zip3_nil_mid {α β γ : Type} (as : List α) (cs : List γ) :
    zip3 as ([] : List β) cs = [] := by
  cases as <;> cases cs <;> rfl

theorem zip3_nil_right {α β γ : Type} (as : List α) (bs : List β) :
    zip3 as bs ([] : List γ) = [] := by
  cases as <;> cases bs <;> rfl

theorem zip3_length {α β γ : Type} (as : List α) (bs : List β) (cs : List γ) :
    (zip3 as bs cs).length = min as.length (min bs.length cs.length) := by
  induction as generalizing bs cs with
  | nil => simp [zip3_nil_left]
  | cons a as ih =>
    cases bs with
    | nil => simp [zip3_nil_mid]
    | cons b bs =>
      cases cs with
      | nil => simp [zip3_nil_right]
      | cons c cs =>
        simp [zip3, ih, Nat.succ_min_succ]

theorem zip3_get? {α β γ : Type} (as : List α) (bs : List β) (cs : List γ) (i : Nat) :
    (zip3 as bs cs).get? i =
      (as.get? i).bind (fun a =>
        (bs.get? i).bind (fun b =>
          (cs.get? i).map (fun c => (a, b, c)))) := by
  induction as generalizing bs cs i with
  | nil => simp [zip3_nil_left]
  | cons a as ih =>
    cases bs with
    | nil => simp [zip3_nil_mid]
    | cons b bs =>
      cases cs with
      | nil => simp [zip3_nil_right]
      | cons c cs =>
        cases i with
        | zero => simp [zip3]
        | succ i => simpa [zip3] using ih bs cs i

/-! ## The detection loop (`RealTimeEmotionDetector.execute`, main.py lines 79-105)

The loop body is embedded as a step function `tick` over an explicit
`LoopState`.  The external collaborators are embedded as per-tick inputs:
- `quitPressed` models `cv2.waitKey(delay=wait_key_delay) == ord(quit_key)`
  at the top of the iteration;
- `readRes` models the pair returned by `self.vidCapture.read()` inside
  `read_frame` (a success flag and an optional frame; the frame is
  identified by a `Nat` id, its pixel content being irrelevant here);
- `labels`, `rects`, `lms` model what the classifier collaborator methods
  `classify`, `extract_face_rectangle`, `extract_landmark_points` would
  return when invoked on this frame.

`predicted_labels` is initialized to the empty Python string, which
iterates as the empty sequence, so it is embedded as the empty list.
When `self.vidCapture.read()` yields no frame (end-of-stream or device
error), `read_frame` returns `None` and the first OpenCV primitive that
touches the frame in the same iteration (`cv2.cvtColor` on a due tick,
`cv2.rectangle` with a non-empty pairing, otherwise `cv2.imshow`) raises;
this is modelled as `StepOut.crash`: the iteration completes no observable
work and the exception propagates out of `execute`. -/

/-- The mutable locals of `execute` that persist across iterations
(main.py lines 80-84): `frame_cnt`, `predicted_labels`, `old_txt`,
`rectangles`, `landmark_points_list`. -/
structure LoopState where
  frame_cnt : Nat
  predicted_labels : List Label
  old_txt : Option (List Label)
  rectangles : List Rect
  landmark_points_list : List (Option PointList)
deriving DecidableEq

/-- The initial values of the loop locals (main.py lines 80-84):
`frame_cnt = 0`, `predicted_labels = ''`, `old_txt = None`,
`rectangles = [(0, 0, 0, 0)]`, `landmark_points_list = [[(0, 0)]]`. -/
def initState : LoopState :=
  { frame_cnt := 0
    predicted_labels := []
    old_txt := none
    rectangles := [(0, 0, 0, 0)]
    landmark_points_list := [some [(0, 0)]] }

/-- The classifier-visible fields of the state, i.e. the stored
annotation data: `(predicted_labels, rectangles, landmark_points_list)`. -/
def annFields (s : LoopState) :
    List Label × List Rect × List (Option PointList) :=
  (s.predicted_labels, s.rectangles, s.landmark_points_list)

/-- `zip(predicted_labels, rectangles, landmark_points_list)` over the
stored annotation data of a state (main.py line 93). -/
def zip3Fields (s : LoopState) : List (Label × Rect × Option PointList) :=
  zip3 s.predicted_labels s.rectangles s.landmark_points_list

/-- Per-tick collaborator inputs (see the section comment above). -/
structure TickInput where
  quitPressed : Bool
  readRes : Bool × Option Nat
  labels : List Label
  rects : List Rect
  lms : List (Option PointList)
deriving DecidableEq

/-- `read_frame` (main.py lines 68-70): `rect, frame = self.vidCapture.read();
return frame` — the success flag is discarded and the frame (possibly
`None`) is returned unchecked. -/
def read_frame (res : Bool × Option Nat) : Option Nat := res.2

/-- The body of the `for lbl, rectangle, lm_points in zip(...)` loop
(main.py lines 94-96): draw the face rectangle, then the landmark points,
then the label, for one paired entry. -/
def renderEntry (e : Label × Rect × Option PointList) : List DrawCmd :=
  draw_face_rectangle (mkBB e.2.1) ++ draw_landmark_points e.2.2 ++
    write_label e.2.1.1 e.2.1.2.1 e.1

/-- The `for` loop of main.py lines 93-100 over the paired entries: each
iteration issues the three draw calls for its entry and then, when
`old_txt != predicted_labels`, prints the predicted labels and updates
`old_txt`.  Returns the issued draw commands, the emitted log records, and
the final `old_txt`. -/
def render_loop (lbls : List Label) :
    Option (List Label) → List (Label × Rect × Option PointList) →
      List DrawCmd × List (List Label) × Option (List Label)
  | old, [] => ([], [], old)
  | old, e :: rest =>
    let out := render_loop lbls (if old = some lbls then old else some lbls) rest
    (renderEntry e ++ out.1,
     (if old = some lbls then [] else [lbls]) ++ out.2.1,
     out.2.2)

/-- The `if frame_cnt % (frame_period_s * 100) == 0:` block (main.py lines
92-96, with `frame_cnt` already incremented by line 90): on a due tick the
counter is reset to 0 and the three stored sequences are replaced by the
classifier results for the current frame; on a non-due tick the state only
records the incremented counter.  `p` is the integral period
`frame_period_s * 100` (exactly `75` for the default `frame_period_s =
0.75`, since `0.75` is exactly representable in binary floating point and
`0.75 * 100 == 75.0` exactly, and Python `int % 75.0 == 0` agrees with
`int % 75 == 0`). -/
def updState (p : Nat) (s : LoopState) (inp : TickInput) : LoopState :=
  if (s.frame_cnt + 1) % p = 0 then
    { frame_cnt := 0
      predicted_labels := inp.labels
      old_txt := s.old_txt
      rectangles := inp.rects
      landmark_points_list := inp.lms }
  else
    { s with frame_cnt := s.frame_cnt + 1 }

/-- The loop state after one full successful iteration: the classify
block followed by the render loop, which may update `old_txt`. -/
def postState (p : Nat) (s : LoopState) (inp : TickInput) : LoopState :=
  let s1 := updState p s inp
  let rl := render_loop s1.predicted_labels s1.old_txt (zip3Fields s1)
  { s1 with old_txt := rl.2.2 }

/-- The observable record of one successful iteration: whether the three
classifier extraction calls were invoked, the paired entries iterated by
the render loop, the draw commands issued, the log records printed, and
the frame id that was drawn on and passed to `cv2.imshow`. -/
structure TickResult where
  classified : Bool
  rendered : List (Label × Rect × Option PointList)
  cmds : List DrawCmd
  logs : List (List Label)
  frame : Nat
deriving DecidableEq

/-- The observable record of one successful iteration on frame `f`. -/
def tickRes (p : Nat) (s : LoopState) (inp : TickInput) (f : Nat) : TickResult :=
  let s1 := updState p s inp
  let rl := render_loop s1.predicted_labels s1.old_txt (zip3Fields s1)
  { classified := decide ((s.frame_cnt + 1) % p = 0)
    rendered := zip3Fields s1
    cmds := rl.1
    logs := rl.2.1
    frame := f }

/-- Outcome of one iteration of the `while` body: either it runs to
completion, or an OpenCV primitive raises because the capture collaborator
returned no frame. -/
inductive StepOut where
  | ok (s : LoopState) (r : TickResult)
  | crash
deriving DecidableEq

/-- One iteration of the `while` body (main.py lines 89-102), after the
quit-key poll has already decided to continue: increment `frame_cnt`, read
a frame, classify when due, render the (possibly stale) paired entries,
print on label change, show the frame. -/
def tick (p : Nat) (s : LoopState) (inp : TickInput) : StepOut :=
  match read_frame inp.readRes with
  | none => StepOut.crash
  | some f => StepOut.ok (postState p s inp) (tickRes p s inp f)

/-! ### Stream-indexed driver (for the temporal claims)

`script : Nat → TickInput` supplies the collaborator behavior of every
potential iteration; iteration indices are 0-based, so the tick numbered
`N` in the spec (1-based) is index `N - 1`.  `stateAt p script n` is the
loop state after `n` iterations, and `outAt p script n` the observable
record of iteration index `n`.  These values are only meaningful for
iterations the real loop executes, which the theorems guard with
`reaches`. -/

/-- The loop state after `n` executed iterations. -/
def stateAt (p : Nat) (script : Nat → TickInput) : Nat → LoopState
  | 0 => initState
  | n + 1 =>
    match tick p (stateAt p script n) (script n) with
    | StepOut.ok s _ => s
    | StepOut.crash => stateAt p script n

/-- The observable record of iteration index `n`. -/
def outAt (p : Nat) (script : Nat → TickInput) (n : Nat) : Option TickResult :=
  match tick p (stateAt p script n) (script n) with
  | StepOut.ok _ r => some r
  | StepOut.crash => none

/-- Iteration `k` of the real loop runs to completion: the quit key was
not pressed at its poll and the capture collaborator produced a frame. -/
def oktick (inp : TickInput) : Prop :=
  inp.quitPressed = false ∧ read_frame inp.readRes ≠ none

instance (inp : TickInput) : Decidable (oktick inp) := by
  unfold oktick; infer_instance

/-- The real loop reaches iteration index `n`: every earlier iteration
ran to completion. -/
def reaches (script : Nat → TickInput) (n : Nat) : Prop :=
  ∀ k, k < n → oktick (script k)

/-! ### List-consuming driver (for the exit-path claims)

`execute` consumes a finite script of tick inputs and reports, besides the
per-iteration records, how the run ended and how many times
`cv2.destroyAllWindows()` and `self.vidCapture.release()` (main.py lines
104-105) were invoked.  Those two calls sit after the `while` loop with no
`try`/`finally`, so they run — once each, in that order — exactly when the
loop exits normally via the quit key; an exception raised inside an
iteration propagates past them. -/

/-- How a finite run ended: the quit key was observed at a poll; an
iteration raised (capture failure); or the script ran out while the loop
was still going. -/
inductive ExitKind where
  | quitKey
  | crashed
  | ranOff
deriving DecidableEq

/-- The observable outcome of a finite run. -/
structure RunOut where
  results : List TickResult
  exitKind : ExitKind
  destroy_calls : Nat
  release_calls : Nat
deriving DecidableEq

/-- The `while cv2.waitKey(...) != ord(quit_key)` loop (main.py lines
85-105) from an arbitrary state, consuming a finite input script. -/
def execute_from (p : Nat) : LoopState → List TickInput → RunOut
  | _, [] =>
    { results := [], exitKind := ExitKind.ranOff
      destroy_calls := 0, release_calls := 0 }
  | s, inp :: rest =>
    if inp.quitPressed then
      { results := [], exitKind := ExitKind.quitKey
        destroy_calls := 1, release_calls := 1 }
    else
      match tick p s inp with
      | StepOut.crash =>
        { results := [], exitKind := ExitKind.crashed
          destroy_calls := 0, release_calls := 0 }
      | StepOut.ok s2 r =>
        let out := execute_from p s2 rest
        { results := r :: out.results, exitKind := out.exitKind
          destroy_calls := out.destroy_calls, release_calls := out.release_calls }

/-- `execute` (main.py lines 79-105) on a finite input script, with the
default initial locals. -/
def execute (p : Nat) (script : List TickInput) : RunOut :=
  execute_from p initState script

/-! ## Basic lemmas about the step function and the drivers -/

theorem tick_eq_crash {p : Nat} {s : LoopState} {inp : TickInput}
    (hf : read_frame inp.readRes = none) : tick p s inp = StepOut.crash := by
  simp [tick, hf]

theorem tick_eq_ok {p : Nat} {s : LoopState} {inp : TickInput} {f : Nat}
    (hf : read_frame inp.readRes = some f) :
    tick p s inp = StepOut.ok (postState p s inp) (tickRes p s inp f) := by
  simp [tick, hf]

theorem updState_old_txt (p : Nat) (s : LoopState) (inp : TickInput) :
    (updState p s inp).old_txt = s.old_txt := by
  unfold updState; split <;> rfl

theorem updState_due {p : Nat} {s : LoopState} (inp : TickInput)
    (h : (s.frame_cnt + 1) % p = 0) :
    updState p s inp =
      { frame_cnt := 0, predicted_labels := inp.labels, old_txt := s.old_txt,
        rectangles := inp.rects, landmark_points_list := inp.lms } := by
  simp [updState, h]

theorem updState_nondue {p : Nat} {s : LoopState} (inp : TickInput)
    (h : ¬ (s.frame_cnt + 1) % p = 0) :
    updState p s inp = { s with frame_cnt := s.frame_cnt + 1 } := by
  simp [updState, h]

theorem postState_annFields (p : Nat) (s : LoopState) (inp : TickInput) :
    annFields (postState p s inp) = annFields (updState p s inp) := rfl

theorem postState_frame_cnt (p : Nat) (s : LoopState) (inp : TickInput) :
    (postState p s inp).frame_cnt = (updState p s inp).frame_cnt := rfl

theorem zip3Fields_postState (p : Nat) (s : LoopState) (inp : TickInput) :
    zip3Fields (postState p s inp) = zip3Fields (updState p s inp) := rfl

theorem zip3Fields_congr {s t : LoopState} (h : annFields s = annFields t) :
    zip3Fields s = zip3Fields t := by
  simp [annFields, Prod.ext_iff] at h
  rw [zip3Fields, zip3Fields, h.1, h.2.1, h.2.2]

theorem tickRes_classified (p : Nat) (s : LoopState) (inp : TickInput) (f : Nat) :
    (tickRes p s inp f).classified = decide ((s.frame_cnt + 1) % p = 0) := rfl

theorem tickRes_rendered (p : Nat) (s : LoopState) (inp : TickInput) (f : Nat) :
    (tickRes p s inp f).rendered = zip3Fields (updState p s inp) := rfl

theorem tickRes_frame (p : Nat) (s : LoopState) (inp : TickInput) (f : Nat) :
    (tickRes p s inp f).frame = f := rfl

/-- Closed form of the render loop: it always issues the three draw calls
of every paired entry in order; it prints the predicted labels exactly
once when there is at least one entry and `old_txt` differs from them (the
first iteration prints and updates `old_txt`, so no later iteration of the
same tick prints again), and otherwise prints nothing and leaves `old_txt`
unchanged. -/
theorem render_loop_eq (lbls : List Label) (old : Option (List Label))
    (entries : List (Label × Rect × Option PointList)) :
    render_loop lbls old entries =
      ((entries.map renderEntry).flatten,
       if entries = [] ∨ old = some lbls then [] else [lbls],
       if entries = [] ∨ old = some lbls then old else some lbls) := by
  induction entries generalizing old with
  | nil => simp [render_loop]
  | cons e rest ih =>
    by_cases h : old = some lbls
    · simp [render_loop, h, ih]
    · simp [render_loop, h, ih]

theorem tickRes_cmds (p : Nat) (s : LoopState) (inp : TickInput) (f : Nat) :
    (tickRes p s inp f).cmds =
      ((zip3Fields (updState p s inp)).map renderEntry).flatten := by
  simp [tickRes, render_loop_eq]

theorem tickRes_logs (p : Nat) (s : LoopState) (inp : TickInput) (f : Nat) :
    (tickRes p s inp f).logs =
      (if zip3Fields (updState p s inp) = [] ∨
          s.old_txt = some (updState p s inp).predicted_labels then []
        else [(updState p s inp).predicted_labels]) := by
  simp [tickRes, render_loop_eq, updState_old_txt]

theorem postState_old_txt (p : Nat) (s : LoopState) (inp : TickInput) :
    (postState p s inp).old_txt =
      (if zip3Fields (updState p s inp) = [] ∨
          s.old_txt = some (updState p s inp).predicted_labels then s.old_txt
        else some (updState p s inp).predicted_labels) := by
  simp [postState, render_loop_eq, updState_old_txt]

theorem postState_labels (p : Nat) (s : LoopState) (inp : TickInput) :
    (postState p s inp).predicted_labels = (updState p s inp).predicted_labels := rfl

theorem stateAt_zero (p : Nat) (script : Nat → TickInput) :
    stateAt p script 0 = initState := rfl

theorem stateAt_succ_ok {p : Nat} {script : Nat → TickInput} {n : Nat} {f : Nat}
    (hf : read_frame (script n).readRes = some f) :
    stateAt p script (n + 1) = postState p (stateAt p script n) (script n) := by
  simp [stateAt, tick_eq_ok hf]

theorem outAt_eq_ok {p : Nat} {script : Nat → TickInput} {n : Nat} {f : Nat}
    (hf : read_frame (script n).readRes = some f) :
    outAt p script n = some (tickRes p (stateAt p script n) (script n) f) := by
  simp [outAt, tick_eq_ok hf]

theorem reaches_mono {script : Nat → TickInput} {m n : Nat} (h : m ≤ n)
    (hr : reaches script n) : reaches script m :=
  fun k hk => hr k (lt_of_lt_of_le hk h)

theorem exists_frame_of_oktick {inp : TickInput} (h : oktick inp) :
    ∃ f, read_frame inp.readRes = some f := by
  rcases h with ⟨-, hf⟩
  cases hrd : read_frame inp.readRes with
  | none => exact absurd hrd hf
  | some f => exact ⟨f, rfl⟩

/-- Cadence invariant: as long as the loop keeps executing, `frame_cnt`
after `n` iterations equals `n % p` (incremented every iteration, reset to
0 exactly when the incremented value is a multiple of `p`). -/
theorem frame_cnt_mod (p : Nat) (hp : 0 < p) (script : Nat → TickInput) :
    ∀ n, reaches script n → (stateAt p script n).frame_cnt = n % p := by
  intro n
  induction n with
  | zero => intro _; simp [stateAt_zero, initState]
  | succ n ih =>
    intro h
    have hn : reaches script n := reaches_mono (Nat.le_succ n) h
    obtain ⟨f, hf⟩ := exists_frame_of_oktick (h n (Nat.lt_succ_self n))
    have hfc : (stateAt p script n).frame_cnt = n % p := ih hn
    rw [stateAt_succ_ok hf, postState_frame_cnt]
    by_cases hdue : ((stateAt p script n).frame_cnt + 1) % p = 0
    · rw [updState_due _ hdue]
      have : (n + 1) % p = 0 := by
        rw [hfc] at hdue
        calc (n + 1) % p = (n % p + 1) % p := by rw [Nat.mod_add_mod]
        _ = 0 := hdue
      simpa using this.symm
    · rw [updState_nondue _ hdue]
      rw [hfc] at hdue
      have hmod : (n + 1) % p = (n % p + 1) % p := by rw [Nat.mod_add_mod]
      have hlt : n % p < p := Nat.mod_lt n hp
      have hne : n % p + 1 ≠ p := by
        intro hcon
        apply hdue
        rw [hcon]
        exact Nat.mod_self p
      have hlt1 : n % p + 1 < p := lt_of_le_of_ne hlt hne
      simp [hfc, hmod, Nat.mod_eq_of_lt hlt1]

/-- Stored-annotation stability: over a stretch of executed iterations
none of which is due, the stored labels, rectangles and landmark lists are
unchanged. -/
theorem annFields_stable (p : Nat) (hp : 0 < p) (script : Nat → TickInput) (n : Nat) :
    ∀ d, reaches script (n + d) → (∀ e, 0 < e → e ≤ d → (n + e) % p ≠ 0) →
      annFields (stateAt p script (n + d)) = annFields (stateAt p script n) := by
  intro d
  induction d with
  | zero => intro _ _; rfl
  | succ d ih =>
    intro hr hnd
    have hrd : reaches script (n + d) := reaches_mono (Nat.le_succ (n + d)) hr
    obtain ⟨f, hf⟩ := exists_frame_of_oktick (hr (n + d) (Nat.lt_succ_self (n + d)))
    have hfc : (stateAt p script (n + d)).frame_cnt = (n + d) % p :=
      frame_cnt_mod p hp script (n + d) hrd
    have hdue : ¬ ((stateAt p script (n + d)).frame_cnt + 1) % p = 0 := by
      rw [hfc, Nat.mod_add_mod]
      have : n + d + 1 = n + (d + 1) := by omega
      rw [this]
      exact hnd (d + 1) (Nat.succ_pos d) (le_refl (d + 1))
    have hstep : annFields (stateAt p script (n + d + 1)) =
        annFields (stateAt p script (n + d)) := by
      rw [stateAt_succ_ok hf, postState_annFields, updState_nondue _ hdue]
      rfl
    have : n + (d + 1) = n + d + 1 := by omega
    rw [this, hstep]
    exact ih hrd (fun e he hed => hnd e he (Nat.le_succ_of_le hed))

/-! ## Concrete scripts used by the witnesses and counterexamples -/

/-- A quiet, well-behaved tick: no quit key, a frame arrives, the
classifier reports one face with one landmark point. -/
def constInput : TickInput :=
  { quitPressed := false
    readRes := (true, some 7)
    labels := ["happy"]
    rects := [(10, 10, 50, 50)]
    lms := [some [(20, 20)]] }

/-- The infinite script that repeats `constInput` every tick. -/
def constScript : Nat → TickInput := fun _ => constInput

theorem constScript_reaches (m : Nat) : reaches constScript m :=
  fun _ _ => ⟨rfl, fun hc => Option.noConfusion hc⟩

/-! ## Claims -/

/-- C1: with `period_seconds = 0.75`, so `frame_period_s * 100 = 75`
exactly, on every iteration the real loop executes (1-based tick number
`n + 1`), the three classifier extraction calls (`classify`,
`extract_face_rectangle`, `extract_landmark_points`) are invoked exactly
when `(n + 1) % 75 = 0`, i.e. on ticks 75, 150, 225, ... and on no
intermediate tick, and `frame_cnt` after the tick equals `(n + 1) % 75`,
so it is reset to 0 exactly on the invocation ticks. -/
theorem C1_cadence (script : Nat → TickInput) (n : Nat)
    (h : reaches script (n + 1)) :
    (∃ r, outAt 75 script n = some r ∧ (r.classified = true ↔ (n + 1) % 75 = 0)) ∧
    (stateAt 75 script (n + 1)).frame_cnt = (n + 1) % 75 ∧
    ((stateAt 75 script (n + 1)).frame_cnt = 0 ↔ (n + 1) % 75 = 0) := by
  have hn : reaches script n := reaches_mono (Nat.le_succ n) h
  obtain ⟨f, hf⟩ := exists_frame_of_oktick (h n (Nat.lt_succ_self n))
  have hfc : (stateAt 75 script n).frame_cnt = n % 75 :=
    frame_cnt_mod 75 (by norm_num) script n hn
  have hfc1 : (stateAt 75 script (n + 1)).frame_cnt = (n + 1) % 75 :=
    frame_cnt_mod 75 (by norm_num) script (n + 1) h
  refine ⟨⟨tickRes 75 (stateAt 75 script n) (script n) f, outAt_eq_ok hf, ?_⟩,
    hfc1, ?_⟩
  · rw [tickRes_classified, hfc, Nat.mod_add_mod]
    simp
  · rw [hfc1]

/-- C1 witness: tick 75 of the constant script. -/
theorem C1_cadence_witness :
    (∃ r, outAt 75 constScript 74 = some r ∧
      (r.classified = true ↔ (74 + 1) % 75 = 0)) ∧
    (stateAt 75 constScript (74 + 1)).frame_cnt = (74 + 1) % 75 ∧
    ((stateAt 75 constScript (74 + 1)).frame_cnt = 0 ↔ (74 + 1) % 75 = 0) :=
  C1_cadence constScript 74 (constScript_reaches 75)

/-- C2: if the classification tick numbered `N` (1-based, `N % p = 0`)
produces the paired annotation set `A`, then every later executed tick
`N + d` with `0 < d < p` invokes no classification, leaves the stored
annotation state (`predicted_labels`, `rectangles`,
`landmark_points_list`) unchanged, iterates exactly the same paired set
`A` and issues exactly the same draw commands, onto the frame freshly
captured on that tick. -/
theorem C2_staleness (p : Nat) (script : Nat → TickInput) (N d : Nat)
    (hp : 0 < p) (hN : 0 < N) (hdue : N % p = 0) (hd : 0 < d) (hdp : d < p)
    (hr : reaches script (N + d)) :
    ∃ rN rM, outAt p script (N - 1) = some rN ∧
      outAt p script (N + d - 1) = some rM ∧
      rN.classified = true ∧ rM.classified = false ∧
      rM.rendered = rN.rendered ∧ rM.cmds = rN.cmds ∧
      annFields (stateAt p script (N + d)) = annFields (stateAt p script N) ∧
      read_frame (script (N + d - 1)).readRes = some rM.frame := by
  have hN1 : N - 1 + 1 = N := by omega
  have hM1 : N + d - 1 + 1 = N + d := by omega
  have hrN1 : reaches script (N - 1) := reaches_mono (by omega) hr
  have hrM1 : reaches script (N + d - 1) := reaches_mono (by omega) hr
  obtain ⟨fN, hfN⟩ := exists_frame_of_oktick (hr (N - 1) (by omega))
  obtain ⟨fM, hfM⟩ := exists_frame_of_oktick (hr (N + d - 1) (by omega))
  have hstab : annFields (stateAt p script (N + d)) =
      annFields (stateAt p script N) := by
    apply annFields_stable p hp script N d hr
    intro e he hed
    obtain ⟨k, hk⟩ := Nat.dvd_of_mod_eq_zero hdue
    rw [hk, Nat.mul_add_mod, Nat.mod_eq_of_lt (by omega)]
    omega
  refine ⟨tickRes p (stateAt p script (N - 1)) (script (N - 1)) fN,
    tickRes p (stateAt p script (N + d - 1)) (script (N + d - 1)) fM,
    outAt_eq_ok hfN, outAt_eq_ok hfM, ?_, ?_, ?_, ?_, hstab, ?_⟩
  · rw [tickRes_classified, frame_cnt_mod p hp script (N - 1) hrN1,
      Nat.mod_add_mod, hN1, hdue]
    rfl
  · rw [tickRes_classified, frame_cnt_mod p hp script (N + d - 1) hrM1,
      Nat.mod_add_mod, hM1]
    have hval : (N + d) % p = d := by
      obtain ⟨k, hk⟩ := Nat.dvd_of_mod_eq_zero hdue
      rw [hk, Nat.mul_add_mod, Nat.mod_eq_of_lt hdp]
    rw [hval]
    simp [decide_eq_false_iff_not]
    omega
  · rw [tickRes_rendered, tickRes_rendered, ← zip3Fields_postState,
      ← zip3Fields_postState, ← stateAt_succ_ok hfM, ← stateAt_succ_ok hfN,
      hM1, hN1]
    exact zip3Fields_congr hstab
  · rw [tickRes_cmds, tickRes_cmds, ← zip3Fields_postState,
      ← zip3Fields_postState, ← stateAt_succ_ok hfM, ← stateAt_succ_ok hfN,
      hM1, hN1, zip3Fields_congr hstab]
  · rw [tickRes_frame]
    exact hfM

/-- C2 witness: period 2, due tick 2, stale tick 3 of the constant
script. -/
theorem C2_staleness_witness :
    ∃ rN rM, outAt 2 constScript (2 - 1) = some rN ∧
      outAt 2 constScript (2 + 1 - 1) = some rM ∧
      rN.classified = true ∧ rM.classified = false ∧
      rM.rendered = rN.rendered ∧ rM.cmds = rN.cmds ∧
      annFields (stateAt 2 constScript (2 + 1)) = annFields (stateAt 2 constScript 2) ∧
      read_frame (constScript (2 + 1 - 1)).readRes = some rM.frame :=
  C2_staleness 2 constScript 2 1 (by decide) (by decide) (by decide)
    (by decide) (by decide) (constScript_reaches 3)

/-- C3: on a due tick the paired annotation set iterated by the render
loop is exactly `zip(labels, rectangles, landmark_points_list)` of the
three classifier results: positional, index by index, truncated to the
shortest of the three sequences (any extra elements are silently
dropped). -/
theorem C3_pairing (p : Nat) (s : LoopState) (inp : TickInput) (f : Nat)
    (hf : read_frame inp.readRes = some f)
    (hdue : (s.frame_cnt + 1) % p = 0) :
    ∃ s2 r, tick p s inp = StepOut.ok s2 r ∧
      r.rendered = zip3 inp.labels inp.rects inp.lms ∧
      r.rendered.length =
        min inp.labels.length (min inp.rects.length inp.lms.length) ∧
      (∀ i, r.rendered.get? i =
        (inp.labels.get? i).bind (fun a =>
          (inp.rects.get? i).bind (fun b =>
            (inp.lms.get? i).map (fun c => (a, b, c))))) := by
  refine ⟨postState p s inp, tickRes p s inp f, tick_eq_ok hf, ?_, ?_, ?_⟩
  · rw [tickRes_rendered, updState_due _ hdue]
    rfl
  · rw [tickRes_rendered, updState_due _ hdue]
    exact zip3_length inp.labels inp.rects inp.lms
  · intro i
    rw [tickRes_rendered, updState_due _ hdue]
    exact zip3_get? inp.labels inp.rects inp.lms i

/-- Classifier results with 3 labels, 2 rectangles and 3 landmark sets,
for the C3 witness. -/
def pairInput : TickInput :=
  { quitPressed := false
    readRes := (true, some 3)
    labels := ["angry", "happy", "sad"]
    rects := [(1, 2, 3, 4), (5, 6, 7, 8)]
    lms := [some [(1, 1)], some [(2, 2)], some [(3, 3)]] }

/-- C3 witness: labels `[a, b, c]`, rectangles `[R1, R2]`, landmarks
`[L1, L2, L3]` pair to exactly the 2 entries `(a, R1, L1)` and
`(b, R2, L2)`; `c` and `L3` are dropped. -/
theorem C3_pairing_witness :
    ∃ s2 r, tick 1 initState pairInput = StepOut.ok s2 r ∧
      r.rendered = [("angry", (1, 2, 3, 4), some [(1, 1)]),
        ("happy", (5, 6, 7, 8), some [(2, 2)])] ∧
      r.rendered.length = 2 := by
  obtain ⟨s2, r, h1, h2, h3, -⟩ :=
    C3_pairing 1 initState pairInput 3 rfl (by decide)
  refine ⟨s2, r, h1, ?_, ?_⟩
  · rw [h2]
    rfl
  · rw [h3]
    decide

/-- C4 (amended): on every executed tick, the render loop emits at most
one observability record; it emits exactly one — the current full label
collection — precisely when the paired annotation set of the tick is
non-empty and that collection differs from the last logged one
(`old_txt`), and `old_txt` is updated exactly on emission.  In
particular the record never fires while the labels are unchanged and
never fires twice without an intervening change; but on a tick whose
paired set is empty nothing is emitted even when the label collection
changed (see `C4_counterexample`). -/
theorem C4_changelog (p : Nat) (s : LoopState) (inp : TickInput) (f : Nat)
    (hf : read_frame inp.readRes = some f) :
    ∃ s2 r, tick p s inp = StepOut.ok s2 r ∧
      r.logs.length ≤ 1 ∧
      r.logs = (if r.rendered = [] ∨ s.old_txt = some s2.predicted_labels
        then [] else [s2.predicted_labels]) ∧
      s2.old_txt = (if r.rendered = [] ∨ s.old_txt = some s2.predicted_labels
        then s.old_txt else some s2.predicted_labels) := by
  refine ⟨postState p s inp, tickRes p s inp f, tick_eq_ok hf, ?_, ?_, ?_⟩
  · rw [tickRes_logs]
    split <;> simp
  · rw [tickRes_logs, tickRes_rendered, postState_labels]
  · rw [postState_old_txt, tickRes_rendered, postState_labels]

/-- C4 witness: the characterization instantiated on the first tick of
the constant script (period 1). -/
theorem C4_changelog_witness :
    ∃ s2 r, tick 1 initState constInput = StepOut.ok s2 r ∧
      r.logs.length ≤ 1 ∧
      r.logs = (if r.rendered = [] ∨ initState.old_txt = some s2.predicted_labels
        then [] else [s2.predicted_labels]) ∧
      s2.old_txt = (if r.rendered = [] ∨ initState.old_txt = some s2.predicted_labels
        then initState.old_txt else some s2.predicted_labels) :=
  C4_changelog 1 initState constInput 7 rfl

/-- Classifier results with one label but no rectangles, for the C4
counterexample (the spec itself allows mismatched result-sequence
lengths). -/
def noRectInput : TickInput :=
  { quitPressed := false
    readRes := (true, some 0)
    labels := ["happy"]
    rects := []
    lms := [some [(0, 0)]] }

/-- The infinite script that repeats `noRectInput` every tick. -/
def noRectScript : Nat → TickInput := fun _ => noRectInput

/-- C4 counterexample: with period 1, tick 1 is due and the classifier
returns labels `["happy"]` but no rectangles, so the zipped pairing is
empty.  The current label collection `["happy"]` differs from the last
logged one (nothing was ever logged, `old_txt = none`), yet no
observability record is emitted and `old_txt` stays `none`, because the
change check sits inside the `for` loop over the (empty) pairing
(main.py lines 93-100).  This refutes the claim that a record fires
whenever the current label collection differs from the last logged
one. -/
theorem C4_counterexample :
    (outAt 1 noRectScript 0).map TickResult.logs = some [] ∧
    (stateAt 1 noRectScript 1).predicted_labels = ["happy"] ∧
    (stateAt 1 noRectScript 1).old_txt = none := ⟨rfl, rfl, rfl⟩

/-- C5 (amended): on the quit-key exit path `cv2.destroyAllWindows` and
`vidCapture.release` are each invoked exactly once; on the fatal
capture-failure exit path the exception propagates past the cleanup
statements (main.py lines 104-105 sit after the `while` loop with no
`try`/`finally`) and neither is invoked. -/
theorem C5_cleanup_from (p : Nat) :
    ∀ (script : List TickInput) (s : LoopState),
      (((execute_from p s script).exitKind = ExitKind.quitKey →
        (execute_from p s script).destroy_calls = 1 ∧
          (execute_from p s script).release_calls = 1) ∧
       ((execute_from p s script).exitKind = ExitKind.crashed →
        (execute_from p s script).destroy_calls = 0 ∧
          (execute_from p s script).release_calls = 0)) := by
  intro script
  induction script with
  | nil =>
    intro s
    constructor <;> intro h <;> simp [execute_from] at h
  | cons inp rest ih =>
    intro s
    cases hq : inp.quitPressed with
    | true => simp [execute_from, hq]
    | false =>
      cases htick : tick p s inp with
      | crash => simp [execute_from, hq, htick]
      | ok s2 r => simpa [execute_from, hq, htick] using ih s2

/-- C5 (amended, at the run level): for every finite run of `execute`,
if the run ends via the quit key then the display teardown and the
capture release are each invoked exactly once, and if it ends via a
fatal capture failure then neither is invoked (the exception propagates
past the cleanup statements). -/
theorem C5_cleanup (p : Nat) (script : List TickInput) :
    ((execute p script).exitKind = ExitKind.quitKey →
      (execute p script).destroy_calls = 1 ∧
        (execute p script).release_calls = 1) ∧
    ((execute p script).exitKind = ExitKind.crashed →
      (execute p script).destroy_calls = 0 ∧
        (execute p script).release_calls = 0) :=
  C5_cleanup_from p script initState

/-- A tick at whose poll the quit key is observed. -/
def quitInput : TickInput :=
  { quitPressed := true
    readRes := (true, some 0)
    labels := []
    rects := []
    lms := [] }

/-- C5 witness: a run that ends via the quit key releases and tears down
exactly once each. -/
theorem C5_cleanup_witness :
    (execute 75 [quitInput]).destroy_calls = 1 ∧
    (execute 75 [quitInput]).release_calls = 1 :=
  (C5_cleanup 75 [quitInput]).1 rfl

/-- A tick on which the capture collaborator reports failure: no quit
key, `vidCapture.read()` returns no frame. -/
def crashInput : TickInput :=
  { quitPressed := false
    readRes := (false, none)
    labels := []
    rects := []
    lms := [] }

/-- C5 counterexample: on the fatal capture-failure exit path the
capture release and the display teardown are invoked zero times, not
exactly once — `cv2.destroyAllWindows()` and `self.vidCapture.release()`
(main.py lines 104-105) sit after the `while` loop with no
`try`/`finally`, so the propagating exception skips them.  This refutes
the claim that they are invoked exactly once on every exit path. -/
theorem C5_counterexample :
    (execute 75 [crashInput]).exitKind = ExitKind.crashed ∧
    (execute 75 [crashInput]).destroy_calls = 0 ∧
    (execute 75 [crashInput]).release_calls = 0 := ⟨rfl, rfl, rfl⟩

/-- C6: on any tick where the capture collaborator reports end-of-stream
or a device error instead of a frame (and the quit key was not pressed),
the loop terminates at once with a fatal crash: no tick result is
produced, and the rest of the input script — `rest` is universally
quantified and absent from the outcome — is never consumed, i.e. the
acquisition is not retried. -/
theorem C6_fatal_capture (p : Nat) (s : LoopState) (inp : TickInput)
    (rest : List TickInput) (hq : inp.quitPressed = false)
    (hf : read_frame inp.readRes = none) :
    execute_from p s (inp :: rest) =
      { results := [], exitKind := ExitKind.crashed
        destroy_calls := 0, release_calls := 0 } := by
  simp [execute_from, hq, tick_eq_crash hf]

/-- C6 witness: a capture failure on the first tick ends the run at once
even though more script remains. -/
theorem C6_fatal_capture_witness :
    execute_from 75 initState (crashInput :: [constInput]) =
      { results := [], exitKind := ExitKind.crashed
        destroy_calls := 0, release_calls := 0 } :=
  C6_fatal_capture 75 initState crashInput [constInput] rfl rfl

/-- C7: `write_label` on the "no face" sentinel draws the uppercased
sentinel at the frame center `(320, 245) = (int(640 / 2), int(490 / 2))`
in addition to — before, not instead of — the ordinary corner-offset
draw at `(x + 10, y - 10)`; on any other label only the corner-offset
draw occurs. -/
theorem C7_no_face_label (x y : Int) (label : String) :
    (label = NO_FACE_LABEL →
      write_label x y label =
        [DrawCmd.text label.toUpper (320, 245) BLUE_COLOR 2,
         DrawCmd.text label (x + 10, y - 10) BLUE_COLOR 2]) ∧
    (label ≠ NO_FACE_LABEL →
      write_label x y label =
        [DrawCmd.text label (x + 10, y - 10) BLUE_COLOR 2]) := by
  constructor <;> intro h <;>
    simp [write_label, h, FRAME_WIDTH, FRAME_HEIGHT]

/-- C7 witness: both cases at concrete inputs. -/
theorem C7_no_face_label_witness :
    write_label 5 7 NO_FACE_LABEL =
      [DrawCmd.text NO_FACE_LABEL.toUpper (320, 245) BLUE_COLOR 2,
       DrawCmd.text NO_FACE_LABEL (5 + 10, 7 - 10) BLUE_COLOR 2] ∧
    write_label 5 7 "happy" =
      [DrawCmd.text "happy" (5 + 10, 7 - 10) BLUE_COLOR 2] :=
  ⟨(C7_no_face_label 5 7 NO_FACE_LABEL).1 rfl,
   (C7_no_face_label 5 7 "happy").2 (by decide)⟩

/-- C8: `draw_landmark_points` with absent (`None`) points issues no
drawing command at all — and, being a total function of the embedding,
it cannot fail; with present points it issues exactly one small filled
marker (`cv2.circle` of radius 1, thickness -1) per point, in order. -/
theorem C8_landmarks_absent :
    draw_landmark_points none = [] ∧
    ∀ ps : PointList,
      draw_landmark_points (some ps) =
        ps.map (fun q => DrawCmd.circle q 1 WHITE_COLOR (-1)) ∧
      (draw_landmark_points (some ps)).length = ps.length := by
  refine ⟨rfl, fun ps => ⟨rfl, ?_⟩⟩
  simp [draw_landmark_points]

/-- C9: for all integers `x`, `y` and non-negative `w`, `h`, the
`BoundingBox` built from `(x, y, w, h)` satisfies
`top_right = x + w`, `bottom_left = y + h` and `origin = (x, y)`.
(The corners are derived read-only `@property` accessors and the Lean
structure, like the Python object after `__init__`, is immutable.) -/
theorem C9_bounding_box (x y w h : Int) (_hw : 0 ≤ w) (_hh : 0 ≤ h) :
    (BoundingBox.mk x y w h).top_right = x + w ∧
    (BoundingBox.mk x y w h).bottom_left = y + h ∧
    (BoundingBox.mk x y w h).origin = (x, y) :=
  ⟨rfl, rfl, rfl⟩

/-- C9 witness: the box `(1, 2, 3, 4)`. -/
theorem C9_bounding_box_witness :
    (BoundingBox.mk 1 2 3 4).top_right = 1 + 3 ∧
    (BoundingBox.mk 1 2 3 4).bottom_left = 2 + 4 ∧
    (BoundingBox.mk 1 2 3 4).origin = (1, 2) :=
  C9_bounding_box 1 2 3 4 (by decide) (by decide)

/-- C10: on every executed tick numbered `N` with `0 < N < p`, i.e.
strictly before the first due tick, the paired annotation set is empty,
no draw command is issued and no change-log record is emitted — because
the initial `predicted_labels` is the empty sequence (the empty Python
string), even though the initial `rectangles` and
`landmark_points_list` each hold one placeholder entry, `(0, 0, 0, 0)`
and `[(0, 0)]`. -/
theorem C10_empty_before_first_due (p : Nat) (script : Nat → TickInput)
    (N : Nat) (h0 : 0 < N) (hlt : N < p) (hr : reaches script N) :
    ∃ r, outAt p script (N - 1) = some r ∧
      r.rendered = [] ∧ r.cmds = [] ∧ r.logs = [] ∧
      initState.predicted_labels = [] ∧
      initState.rectangles = [(0, 0, 0, 0)] ∧
      initState.landmark_points_list = [some [(0, 0)]] := by
  have hp : 0 < p := lt_trans h0 hlt
  have hN1 : N - 1 + 1 = N := by omega
  obtain ⟨f, hf⟩ := exists_frame_of_oktick (hr (N - 1) (by omega))
  have hstab : annFields (stateAt p script N) = annFields (stateAt p script 0) := by
    have h0N : 0 + N = N := Nat.zero_add N
    have := annFields_stable p hp script 0 N (by rw [h0N]; exact hr) ?_
    · rw [h0N] at this
      exact this
    · intro e he hed
      rw [Nat.zero_add, Nat.mod_eq_of_lt (by omega)]
      omega
  have hlab : (stateAt p script N).predicted_labels = [] :=
    congrArg Prod.fst hstab
  have hrend : zip3Fields (updState p (stateAt p script (N - 1)) (script (N - 1))) = [] := by
    rw [← zip3Fields_postState, ← stateAt_succ_ok hf, hN1, zip3Fields, hlab,
      zip3_nil_left]
  refine ⟨tickRes p (stateAt p script (N - 1)) (script (N - 1)) f,
    outAt_eq_ok hf, ?_, ?_, ?_, rfl, rfl, rfl⟩
  · rw [tickRes_rendered]
    exact hrend
  · rw [tickRes_cmds, hrend]
    rfl
  · rw [tickRes_logs, hrend]
    simp

/-- C10 witness: tick 1 of the constant script with period 75. -/
theorem C10_empty_before_first_due_witness :
    ∃ r, outAt 75 constScript (1 - 1) = some r ∧
      r.rendered = [] ∧ r.cmds = [] ∧ r.logs = [] ∧
      initState.predicted_labels = [] ∧
      initState.rectangles = [(0, 0, 0, 0)] ∧
      initState.landmark_points_list = [some [(0, 0)]] :=
  C10_empty_before_first_due 75 constScript 1 (by decide) (by decide)
    (constScript_reaches 1)
